import Mathlib

/-!
Verification development for `start_my_car.py`, a single-shot automation
script that authenticates with the DroneMobile vehicle API, picks the first
vehicle on the account, and issues a remote-start command.

The embedding models Python dynamic values as the inductive `Value`,
vehicle records as ordered association lists of string-keyed values,
`get_device_key` as a pure function returning `Except` (a raised `KeyError`
becomes the `error` branch), and `main` as a pure function from the process
environment and a model of the `drone_mobile.Vehicle` collaborator to a
`RunResult` recording exit code, stdout, stderr, and the trace of
collaborator calls made.
-/

set_option autoImplicit false

namespace StartMyCar

/-- A Python runtime value, as far as this script can observe one: the
script only ever stores strings, numbers, booleans, `None`, lists and
dicts in the records it handles. `null` models Python `None`. -/
inductive Value where
  | null
  | bool (b : Bool)
  | int (n : Int)
  | str (s : String)
  | list (vs : List Value)
  | dict (fs : List (String × Value))

/-- Python truthiness (`bool(v)`): `None`, `False`, `0`, `""`, `[]` and
`{}` are falsy, everything else truthy. This is the test performed by
`if key in vehicle_info and vehicle_info[key]` on the looked-up value. -/
def Value.truthy : Value → Bool
  | .null => false
  | .bool b => b
  | .int n => !(n == 0)
  | .str s => !(s == "")
  | .list vs => !vs.isEmpty
  | .dict fs => !fs.isEmpty

/-- A vehicle record: a Python dict with string keys, modelled as an
insertion-ordered association list (Python dicts preserve insertion order
and have unique keys). -/
def VehicleRecord := List (String × Value)

/-- Dict key lookup `d[k]` / membership `k in d`: the value at the first
matching key, if any. -/
def lookupKey : VehicleRecord → String → Option Value
  | [], _ => Option.none
  | (k2, v) :: rest, k => if k2 == k then some v else lookupKey rest k

/-- `list(d.keys())`: the record's keys in insertion order. -/
def recordKeys (r : VehicleRecord) : List String :=
  r.map Prod.fst

/-- Python `repr` of a list of strings, as produced by
`"%s" % list(d.keys())`: comma-separated single-quoted items in square
brackets, e.g. `[\x27name\x27]`. -/
def pyListRepr (ks : List String) : String :=
  "[" ++ String.intercalate ", " (ks.map (fun k => "\x27" ++ k ++ "\x27")) ++ "]"

/-- The fixed candidate-key priority order probed by `get_device_key`:
`("device_key", "deviceKey", "deviceID", "device_id")`. -/
def candidateKeys : List String :=
  ["device_key", "deviceKey", "deviceID", "device_id"]

/-- The body of the `for key in (...)` loop in `get_device_key`: return the
value of the first key in `ks` that is present in the record with a truthy
value, else nothing. -/
def probeKeys (r : VehicleRecord) : List String → Option Value
  | [] => Option.none
  | k :: ks =>
    match lookupKey r k with
    | some v => if v.truthy then some v else probeKeys r ks
    | Option.none => probeKeys r ks

/-- The `KeyError` message raised by `get_device_key`:
`"Device key not found in vehicle info: %s" % list(vehicle_info.keys())`. -/
def deviceKeyErrorMsg (r : VehicleRecord) : String :=
  "Device key not found in vehicle info: " ++ pyListRepr (recordKeys r)

/-- `get_device_key(vehicle_info)`: probe the four candidate keys in
priority order, returning the first present truthy value; raise `KeyError`
(modelled as `Except.error` with the exact message) if none matches. -/
def get_device_key (vehicle_info : VehicleRecord) : Except String Value :=
  match probeKeys vehicle_info candidateKeys with
  | some v => Except.ok v
  | Option.none => Except.error (deviceKeyErrorMsg vehicle_info)

/-- The test `key in vehicle_info and vehicle_info[key]` as a boolean on a
single key: present in the record with a truthy value. -/
def presentTruthy (r : VehicleRecord) (k : String) : Bool :=
  match lookupKey r k with
  | some v => v.truthy
  | Option.none => false

/-- JSON string escaping of a single character, as `json.dumps` performs it
for the characters this script can encounter. -/
def jsonEscapeChar (c : Char) : String :=
  if c == '"' then "\\\""
  else if c == '\\' then "\\\\"
  else if c == '\n' then "\\n"
  else if c == '\t' then "\\t"
  else if c == '\r' then "\\r"
  else String.singleton c

/-- A JSON string literal: the text double-quoted with escapes. -/
def jsonQuote (s : String) : String :=
  "\"" ++ String.join (s.toList.map jsonEscapeChar) ++ "\""

/-- `n` spaces of indentation. -/
def indentSpaces (n : Nat) : String :=
  String.mk (List.replicate n ' ')

mutual

/-- `json.dumps(v, indent=2)` rendered at enclosing indentation `ind`:
`null`/`true`/`false`/numbers/strings print atomically; non-empty arrays
and objects open a line, indent members by two more spaces, and close at
the enclosing indentation. -/
def dumpValue : Nat → Value → String
  | _, .null => "null"
  | _, .bool b => cond b "true" "false"
  | _, .int n => toString n
  | _, .str s => jsonQuote s
  | ind, .list vs =>
    match vs with
    | [] => "[]"
    | v :: rest => "[\n" ++ dumpArrayItems (ind + 2) (v :: rest) ++ "\n" ++ indentSpaces ind ++ "]"
  | ind, .dict fs =>
    match fs with
    | [] => "\x7b\x7d"
    | f :: rest => "\x7b\n" ++ dumpObjectItems (ind + 2) (f :: rest) ++ "\n" ++ indentSpaces ind ++ "\x7d"

/-- Array members, one per line at indentation `ind`, separated by `,`. -/
def dumpArrayItems : Nat → List Value → String
  | _, [] => ""
  | ind, [v] => indentSpaces ind ++ dumpValue ind v
  | ind, v :: w :: rest =>
    indentSpaces ind ++ dumpValue ind v ++ ",\n" ++ dumpArrayItems ind (w :: rest)

/-- Object members `"key": value`, one per line at indentation `ind`,
separated by `,`. -/
def dumpObjectItems : Nat → List (String × Value) → String
  | _, [] => ""
  | ind, [(k, v)] => indentSpaces ind ++ jsonQuote k ++ ": " ++ dumpValue ind v
  | ind, (k, v) :: f :: rest =>
    indentSpaces ind ++ jsonQuote k ++ ": " ++ dumpValue ind v ++ ",\n" ++ dumpObjectItems ind (f :: rest)

end

/-- `json.dumps(response, indent=2)` as called in `main`: the top-level
serialization starts at indentation 0. -/
def jsonDumpsIndent2 (v : Value) : String :=
  dumpValue 0 v

/-- Python `str()` of a `KeyError` carrying message `s`: the `repr` of the
string `s`. `repr` double-quotes when the text contains a single quote and
no double quote, and single-quotes (escaping interior single quotes)
otherwise. -/
def pyKeyErrorStr (s : String) : String :=
  if s.contains '\x27' && !(s.contains '"') then
    "\"" ++ s ++ "\""
  else
    "\x27" ++ String.join (s.toList.map
      (fun c => if c == '\x27' then "\\\x27" else String.singleton c)) ++ "\x27"

/-- The process environment, restricted to the two variables the script
reads; `Option.none` models an unset variable. -/
structure Env where
  DRONEMOBILE_USERNAME : Option String
  DRONEMOBILE_PASSWORD : Option String

/-- Python truthiness of `os.environ.get(...)`: `None` and the empty
string are falsy. -/
def envValueTruthy : Option String → Bool
  | Option.none => false
  | some s => !(s == "")

/-- `username` and `password` both read and truthy: the negation of the
guard `if not username or not password`. -/
def credsOk (env : Env) : Bool :=
  envValueTruthy env.DRONEMOBILE_USERNAME && envValueTruthy env.DRONEMOBILE_PASSWORD

/-- One collaborator call made by the script, in order: constructing
`Vehicle(username, password)`, `vehicle_client.auth()`,
`vehicle_client.getAllVehicles()`, `vehicle_client.start(device_key)`. -/
inductive CallEvent where
  | construct
  | auth
  | listVehicles
  | startCommand
deriving DecidableEq, Repr

/-- A behavioural model of the `drone_mobile.Vehicle` collaborator for one
run: whether construction raises, whether `auth()` raises, what
`getAllVehicles()` does (raise, or return `None` or a list), and what
`start(device_key)` does for each key (raise or return a response). The
exceptions are identified by their message text, which is all the script
observes of them. -/
structure Client where
  constructExc : Option String
  authExc : Option String
  listResult : Except String (Option (List VehicleRecord))
  startResult : Value → Except String Value

/-- The observable outcome of one run of the script: exit code, the lines
printed to stdout and stderr, and the trace of collaborator calls that
were issued. -/
structure RunResult where
  exitCode : Nat
  stdout : List String
  stderr : List String
  calls : List CallEvent
deriving DecidableEq, Repr

/-- The stderr line for the merged authentication / vehicle-retrieval
failure domain: `f"Error during authentication or vehicle retrieval: {exc}"`. -/
def authRetrievalMsg (exc : String) : String :=
  "Error during authentication or vehicle retrieval: " ++ exc

/-- `main()`: read credentials from the environment and fail fast if
either is missing or empty; construct the client, authenticate and list
vehicles, folding any exception there into one failure message; treat a
`None` list as empty (`getAllVehicles() or []`); fail if no vehicles; take
the first vehicle, extract its device key, issue the start command; print
the 2-space-indented JSON response on success. Exit code 1 on every
failure path, 0 on success. -/
def main (env : Env) (client : Client) : RunResult :=
  let username := env.DRONEMOBILE_USERNAME
  let password := env.DRONEMOBILE_PASSWORD
  if !(envValueTruthy username) || !(envValueTruthy password) then
    { exitCode := 1, stdout := [],
      stderr := ["Error: Both DRONEMOBILE_USERNAME and DRONEMOBILE_PASSWORD must be set as environment variables."],
      calls := [] }
  else
    match client.constructExc with
    | some exc =>
      { exitCode := 1, stdout := [], stderr := [authRetrievalMsg exc],
        calls := [CallEvent.construct] }
    | Option.none =>
      match client.authExc with
      | some exc =>
        { exitCode := 1, stdout := [], stderr := [authRetrievalMsg exc],
          calls := [CallEvent.construct, CallEvent.auth] }
      | Option.none =>
        match client.listResult with
        | Except.error exc =>
          { exitCode := 1, stdout := [], stderr := [authRetrievalMsg exc],
            calls := [CallEvent.construct, CallEvent.auth, CallEvent.listVehicles] }
        | Except.ok maybeVehicles =>
          let vehicles : List VehicleRecord := maybeVehicles.getD []
          match vehicles with
          | [] =>
            { exitCode := 1, stdout := [],
              stderr := ["Error: No vehicles were found on your DroneMobile account."],
              calls := [CallEvent.construct, CallEvent.auth, CallEvent.listVehicles] }
          | first_vehicle :: _ =>
            match get_device_key first_vehicle with
            | Except.error msg =>
              { exitCode := 1, stdout := [],
                stderr := ["Error extracting device key: " ++ pyKeyErrorStr msg],
                calls := [CallEvent.construct, CallEvent.auth, CallEvent.listVehicles] }
            | Except.ok device_key =>
              match client.startResult device_key with
              | Except.error exc =>
                { exitCode := 1, stdout := [],
                  stderr := ["Error issuing remote start command: " ++ exc],
                  calls := [CallEvent.construct, CallEvent.auth, CallEvent.listVehicles,
                            CallEvent.startCommand] }
              | Except.ok response =>
                { exitCode := 0, stdout := [jsonDumpsIndent2 response], stderr := [],
                  calls := [CallEvent.construct, CallEvent.auth, CallEvent.listVehicles,
                            CallEvent.startCommand] }

/-- The first exception raised inside the `try` block covering client
construction, `auth()` and `getAllVehicles()`, if any: the merged failure
domain of the source's first handler. -/
def authPhaseExc (c : Client) : Option String :=
  match c.constructExc with
  | some e => some e
  | Option.none =>
    match c.authExc with
    | some e => some e
    | Option.none =>
      match c.listResult with
      | Except.error e => some e
      | Except.ok _ => Option.none

/-- The spec's description of the normalizer's selection, written from the
spec's words for comparison with `get_device_key`: among the candidate
keys in priority order, the value of the first one that is present in the
record and truthy. -/
def spec_first_truthy_value (r : VehicleRecord) : Option Value :=
  (candidateKeys.filterMap (fun k => Option.filter Value.truthy (lookupKey r k))).head?

/-- State-passing rendering of the probe loop of `get_device_key`: the
record is threaded through every iteration and returned alongside the
result, so that the absence of mutation is a provable statement rather
than an ambient convention. Each loop step performs only a membership
test and an indexing read on the record. -/
def probeKeysSt : VehicleRecord → List String → Option Value × VehicleRecord
  | r, [] => (Option.none, r)
  | r, k :: ks =>
    match lookupKey r k with
    | some v => if v.truthy then (some v, r) else probeKeysSt r ks
    | Option.none => probeKeysSt r ks

/-- State-passing rendering of `get_device_key`: returns the result
together with the record as it stands after the call (the raising path
reads `vehicle_info.keys()` from that final state). -/
def get_device_key_st (vehicle_info : VehicleRecord) : Except String Value × VehicleRecord :=
  match probeKeysSt vehicle_info candidateKeys with
  | (some v, r2) => (Except.ok v, r2)
  | (Option.none, r2) => (Except.error (deviceKeyErrorMsg r2), r2)

/-! ### Helper lemmas about the probe loop -/

theorem probeKeys_cons_hit (r : VehicleRecord) (k : String) (ks : List String) (v : Value)
    (h1 : lookupKey r k = some v) (h2 : v.truthy = true) :
    probeKeys r (k :: ks) = some v := by
  simp [probeKeys, h1, h2]

theorem probeKeys_cons_skip (r : VehicleRecord) (k : String) (ks : List String)
    (h : presentTruthy r k = false) :
    probeKeys r (k :: ks) = probeKeys r ks := by
  unfold presentTruthy at h
  cases hl : lookupKey r k with
  | none => simp [probeKeys, hl]
  | some v =>
    rw [hl] at h
    have h2 : v.truthy = false := h
    simp [probeKeys, hl, h2]

theorem presentTruthy_eq_true (r : VehicleRecord) (k : String) :
    presentTruthy r k = true ↔ ∃ v, lookupKey r k = some v ∧ v.truthy = true := by
  unfold presentTruthy
  cases hl : lookupKey r k with
  | none => simp
  | some v => simp

theorem probeKeys_eq_none_iff (r : VehicleRecord) (ks : List String) :
    probeKeys r ks = Option.none ↔ ∀ k ∈ ks, presentTruthy r k = false := by
  induction ks with
  | nil => simp [probeKeys]
  | cons k ks ih =>
    cases hpt : presentTruthy r k with
    | false =>
      rw [probeKeys_cons_skip r k ks hpt, ih]
      constructor
      · intro h x hx
        rcases List.mem_cons.mp hx with rfl | hx2
        · exact hpt
        · exact h x hx2
      · intro h x hx
        exact h x (List.mem_cons_of_mem k hx)
    | true =>
      obtain ⟨v, hv, ht⟩ := (presentTruthy_eq_true r k).mp hpt
      rw [probeKeys_cons_hit r k ks v hv ht]
      constructor
      · intro h
        exact absurd h (by simp)
      · intro hall
        have hfalse := hall k (List.mem_cons_self k ks)
        rw [hpt] at hfalse
        exact Bool.noConfusion hfalse

theorem probeKeys_eq_spec (r : VehicleRecord) (ks : List String) :
    probeKeys r ks =
      (ks.filterMap (fun k => Option.filter Value.truthy (lookupKey r k))).head? := by
  induction ks with
  | nil => rfl
  | cons k ks ih =>
    cases hpt : presentTruthy r k with
    | false =>
      have hf : Option.filter Value.truthy (lookupKey r k) = Option.none := by
        unfold presentTruthy at hpt
        cases hl : lookupKey r k with
        | none => rfl
        | some v =>
          rw [hl] at hpt
          have h2 : v.truthy = false := hpt
          simp [Option.filter, h2]
      rw [probeKeys_cons_skip r k ks hpt, ih]
      simp only [List.filterMap_cons, hf]
    | true =>
      obtain ⟨v, hv, ht⟩ := (presentTruthy_eq_true r k).mp hpt
      have hf : Option.filter Value.truthy (lookupKey r k) = some v := by
        rw [hv]
        simp [Option.filter, ht]
      rw [probeKeys_cons_hit r k ks v hv ht]
      simp only [List.filterMap_cons, hf, List.head?_cons]

theorem probeKeysSt_eq (r : VehicleRecord) (ks : List String) :
    probeKeysSt r ks = (probeKeys r ks, r) := by
  induction ks with
  | nil => rfl
  | cons k ks ih =>
    cases hl : lookupKey r k with
    | none => simp [probeKeysSt, probeKeys, hl, ih]
    | some v =>
      cases ht : v.truthy with
      | false => simp [probeKeysSt, probeKeys, hl, ht, ih]
      | true => simp [probeKeysSt, probeKeys, hl, ht]

/-! ### Claims about the normalizer -/

/-- C1: `get_device_key` probes `device_key`, `deviceKey`, `deviceID`,
`device_id` in exactly that priority order and returns the value of the
first candidate that is present and truthy, regardless of what any
later-priority candidate holds; a candidate present with a falsy value
does not stop the probe (`presentTruthy` is false for it, which is all
the earlier-candidates hypothesis requires). -/
theorem get_device_key_priority (r : VehicleRecord) (i : Nat) (hi : i < candidateKeys.length)
    (v : Value)
    (hp : lookupKey r (candidateKeys.getD i "") = some v)
    (ht : v.truthy = true)
    (he : ∀ j : Nat, j < i → presentTruthy r (candidateKeys.getD j "") = false) :
    get_device_key r = Except.ok v := by
  have h4 : i < 4 := hi
  unfold get_device_key candidateKeys
  interval_cases i
  · rw [probeKeys_cons_hit r "device_key" _ v hp ht]
  · rw [probeKeys_cons_skip r "device_key" _ (he 0 (by omega)),
        probeKeys_cons_hit r "deviceKey" _ v hp ht]
  · rw [probeKeys_cons_skip r "device_key" _ (he 0 (by omega)),
        probeKeys_cons_skip r "deviceKey" _ (he 1 (by omega)),
        probeKeys_cons_hit r "deviceID" _ v hp ht]
  · rw [probeKeys_cons_skip r "device_key" _ (he 0 (by omega)),
        probeKeys_cons_skip r "deviceKey" _ (he 1 (by omega)),
        probeKeys_cons_skip r "deviceID" _ (he 2 (by omega)),
        probeKeys_cons_hit r "device_id" _ v hp ht]

/-- C1 witness: on a record where `device_key` is absent, `deviceKey` is
present but falsy (empty string), and both `deviceID` and `device_id` are
truthy, the normalizer returns the `deviceID` value. -/
theorem get_device_key_priority_witness :
    lookupKey [("deviceKey", Value.str ""), ("deviceID", Value.int 5), ("device_id", Value.str "x")]
        (candidateKeys.getD 2 "") = some (Value.int 5) ∧
    get_device_key
        [("deviceKey", Value.str ""), ("deviceID", Value.int 5), ("device_id", Value.str "x")] =
      Except.ok (Value.int 5) :=
  ⟨by rfl,
   get_device_key_priority
     [("deviceKey", Value.str ""), ("deviceID", Value.int 5), ("device_id", Value.str "x")]
     2 (by decide) (Value.int 5) (by rfl) (by rfl)
     (by intro j hj; interval_cases j <;> rfl)⟩

/-- C2: `get_device_key` raises (errors) exactly when no candidate key is
present with a truthy value, and the error message enumerates exactly the
keys actually present on the record, in order; on every other record it
returns a value. -/
theorem get_device_key_failure_iff (r : VehicleRecord) :
    (get_device_key r =
        Except.error ("Device key not found in vehicle info: " ++ pyListRepr (recordKeys r)) ↔
      ∀ k ∈ candidateKeys, presentTruthy r k = false) ∧
    ((∃ v, get_device_key r = Except.ok v) ↔
      ∃ k ∈ candidateKeys, presentTruthy r k = true) := by
  constructor
  · unfold get_device_key
    cases hp : probeKeys r candidateKeys with
    | none =>
      exact ⟨fun _ => (probeKeys_eq_none_iff r candidateKeys).mp hp, fun _ => rfl⟩
    | some v =>
      constructor
      · intro h
        exact absurd h (by simp)
      · intro hall
        have hn := (probeKeys_eq_none_iff r candidateKeys).mpr hall
        rw [hp] at hn
        exact absurd hn (by simp)
  · unfold get_device_key
    cases hp : probeKeys r candidateKeys with
    | none =>
      constructor
      · rintro ⟨v, hv⟩
        exact absurd hv (by simp)
      · rintro ⟨k, hk, htr⟩
        have hfalse := (probeKeys_eq_none_iff r candidateKeys).mp hp k hk
        rw [htr] at hfalse
        exact Bool.noConfusion hfalse
    | some v =>
      constructor
      · intro _
        by_contra hnone
        push_neg at hnone
        have hall : ∀ k ∈ candidateKeys, presentTruthy r k = false := by
          intro k hk
          cases h : presentTruthy r k with
          | false => rfl
          | true => exact absurd h (by simpa using hnone k hk)
        have hn := (probeKeys_eq_none_iff r candidateKeys).mpr hall
        rw [hp] at hn
        exact absurd hn (by simp)
      · intro _
        exact ⟨v, rfl⟩

/-- C9: the normalizer returns the stored value itself, with no
conversion: whenever the spec-level selection (first present truthy
candidate) yields value `v`, `get_device_key` returns exactly `v` — in
particular a non-string value such as an integer is returned as that
integer, not its string form. -/
theorem get_device_key_value_unchanged (r : VehicleRecord) (v : Value)
    (h : spec_first_truthy_value r = some v) :
    get_device_key r = Except.ok v := by
  unfold spec_first_truthy_value at h
  unfold get_device_key
  rw [probeKeys_eq_spec r candidateKeys, h]

/-- C9 witness: a record whose only candidate key `deviceID` holds the
integer `7` makes the normalizer return the integer value `7` itself. -/
theorem get_device_key_value_unchanged_witness :
    spec_first_truthy_value [("deviceID", Value.int 7), ("name", Value.str "Car")] =
        some (Value.int 7) ∧
    get_device_key [("deviceID", Value.int 7), ("name", Value.str "Car")] =
      Except.ok (Value.int 7) :=
  ⟨by rfl,
   get_device_key_value_unchanged [("deviceID", Value.int 7), ("name", Value.str "Car")]
     (Value.int 7) (by rfl)⟩

/-- C10: the normalizer never mutates its input: in the state-passing
rendering `get_device_key_st`, the record coming out of the call is the
record that went in, on the returning path and on the raising path alike,
and the computed result agrees with `get_device_key`. -/
theorem get_device_key_no_mutation (r : VehicleRecord) :
    (get_device_key_st r).2 = r ∧ (get_device_key_st r).1 = get_device_key r := by
  unfold get_device_key_st get_device_key
  rw [probeKeysSt_eq r candidateKeys]
  cases probeKeys r candidateKeys with
  | none => exact ⟨rfl, rfl⟩
  | some v => exact ⟨rfl, rfl⟩

/-! ### Claims about the runner -/

theorem credsOk_cond (env : Env) (h : credsOk env = true) :
    (!(envValueTruthy env.DRONEMOBILE_USERNAME) || !(envValueTruthy env.DRONEMOBILE_PASSWORD))
      = false := by
  unfold credsOk at h
  rw [Bool.and_eq_true] at h
  obtain ⟨hU, hP⟩ := h
  simp [hU, hP]

/-- C3: whenever client construction, the authentication exchange, or the
vehicle-listing call raises (any of the three, merged into one failure
domain), the runner exits 1 with a single stderr line that begins
`Error during authentication or vehicle retrieval` followed by the
underlying exception text, prints nothing to stdout, and never issues the
start command. -/
theorem main_auth_phase_failure (env : Env) (c : Client) (exc : String)
    (henv : credsOk env = true) (h : authPhaseExc c = some exc) :
    (main env c).exitCode = 1 ∧
    (main env c).stderr = ["Error during authentication or vehicle retrieval: " ++ exc] ∧
    (main env c).stdout = [] ∧
    CallEvent.startCommand ∉ (main env c).calls := by
  have hcond := credsOk_cond env henv
  unfold authPhaseExc at h
  cases hc : c.constructExc with
  | some e =>
    rw [hc] at h
    have he : e = exc := by injection h
    subst he
    simp [main, hcond, hc, authRetrievalMsg]
  | none =>
    rw [hc] at h
    cases ha : c.authExc with
    | some e =>
      simp only [ha] at h
      have he : e = exc := by injection h
      subst he
      simp [main, hcond, hc, ha, authRetrievalMsg]
    | none =>
      simp only [ha] at h
      cases hl : c.listResult with
      | error e =>
        simp only [hl] at h
        have he : e = exc := by injection h
        subst he
        simp [main, hcond, hc, ha, hl, authRetrievalMsg]
      | ok mv =>
        simp only [hl] at h
        exact Option.noConfusion h

/-- C3 witness: construction raising `boom` under valid credentials gives
exit 1, the merged stderr message with the underlying text, empty stdout,
and no start command in the trace. -/
theorem main_auth_phase_failure_witness :
    credsOk ⟨some "u", some "p"⟩ = true ∧
    authPhaseExc ⟨some "boom", Option.none, Except.ok (some []), fun _ => Except.ok Value.null⟩
      = some "boom" ∧
    ((main ⟨some "u", some "p"⟩
        ⟨some "boom", Option.none, Except.ok (some []), fun _ => Except.ok Value.null⟩).exitCode = 1 ∧
     (main ⟨some "u", some "p"⟩
        ⟨some "boom", Option.none, Except.ok (some []), fun _ => Except.ok Value.null⟩).stderr =
       ["Error during authentication or vehicle retrieval: " ++ "boom"] ∧
     (main ⟨some "u", some "p"⟩
        ⟨some "boom", Option.none, Except.ok (some []), fun _ => Except.ok Value.null⟩).stdout = [] ∧
     CallEvent.startCommand ∉
       (main ⟨some "u", some "p"⟩
          ⟨some "boom", Option.none, Except.ok (some []), fun _ => Except.ok Value.null⟩).calls) :=
  ⟨by decide, rfl,
   main_auth_phase_failure ⟨some "u", some "p"⟩
     ⟨some "boom", Option.none, Except.ok (some []), fun _ => Except.ok Value.null⟩
     "boom" (by decide) rfl⟩

/-- C4: when authentication succeeds and `getAllVehicles()` returns
`None`, the runner behaves exactly as on an empty list (`or []`): same
run result as with an empty list, exit code 1, a stderr line containing
`No vehicles were found`, empty stdout, and no start command issued. -/
theorem main_none_vehicle_list (env : Env) (c : Client)
    (henv : credsOk env = true)
    (hc : c.constructExc = Option.none) (ha : c.authExc = Option.none)
    (hl : c.listResult = Except.ok Option.none) :
    main env c = main env { c with listResult := Except.ok (some []) } ∧
    (main env c).exitCode = 1 ∧
    (∃ pre post, (main env c).stderr = [pre ++ "No vehicles were found" ++ post]) ∧
    (main env c).stdout = [] ∧
    CallEvent.startCommand ∉ (main env c).calls := by
  have hcond := credsOk_cond env henv
  refine ⟨by simp [main, hcond, hc, ha, hl], by simp [main, hcond, hc, ha, hl],
    ⟨"Error: ", " on your DroneMobile account.", ?_⟩,
    by simp [main, hcond, hc, ha, hl], by simp [main, hcond, hc, ha, hl]⟩
  simp [main, hcond, hc, ha, hl]

/-- C4 witness: a client whose listing call returns `None` under valid
credentials is treated as an empty vehicle list. -/
theorem main_none_vehicle_list_witness :
    credsOk ⟨some "u", some "p"⟩ = true ∧
    ((main ⟨some "u", some "p"⟩
        ⟨Option.none, Option.none, Except.ok Option.none, fun _ => Except.ok Value.null⟩) =
      main ⟨some "u", some "p"⟩
        ⟨Option.none, Option.none, Except.ok (some []), fun _ => Except.ok Value.null⟩ ∧
     (main ⟨some "u", some "p"⟩
        ⟨Option.none, Option.none, Except.ok Option.none, fun _ => Except.ok Value.null⟩).exitCode
       = 1 ∧
     (∃ pre post,
       (main ⟨some "u", some "p"⟩
          ⟨Option.none, Option.none, Except.ok Option.none, fun _ => Except.ok Value.null⟩).stderr =
         [pre ++ "No vehicles were found" ++ post]) ∧
     (main ⟨some "u", some "p"⟩
        ⟨Option.none, Option.none, Except.ok Option.none, fun _ => Except.ok Value.null⟩).stdout
       = [] ∧
     CallEvent.startCommand ∉
       (main ⟨some "u", some "p"⟩
          ⟨Option.none, Option.none, Except.ok Option.none, fun _ => Except.ok Value.null⟩).calls) :=
  ⟨by decide,
   main_none_vehicle_list ⟨some "u", some "p"⟩
     ⟨Option.none, Option.none, Except.ok Option.none, fun _ => Except.ok Value.null⟩
     (by decide) rfl rfl rfl⟩

/-- C5: when every step succeeds with command response `resp`, the runner
prints exactly the 2-space-indented JSON serialization of `resp` to
stdout and exits 0, having issued all four collaborator calls; and on
every run whatsoever, stdout is either empty or consists of exactly that
serialization of some response on an exit-0 run (stdout is written on no
other path). -/
theorem main_success_prints_json :
    (∀ (env : Env) (c : Client) (v : VehicleRecord) (vs : List VehicleRecord)
        (dk : Value) (resp : Value),
      credsOk env = true → c.constructExc = Option.none → c.authExc = Option.none →
      c.listResult = Except.ok (some (v :: vs)) → get_device_key v = Except.ok dk →
      c.startResult dk = Except.ok resp →
      main env c = { exitCode := 0, stdout := [jsonDumpsIndent2 resp], stderr := [],
                     calls := [CallEvent.construct, CallEvent.auth, CallEvent.listVehicles,
                               CallEvent.startCommand] }) ∧
    (∀ (env : Env) (c : Client),
      (main env c).stdout = [] ∨
      ((main env c).exitCode = 0 ∧ ∃ resp, (main env c).stdout = [jsonDumpsIndent2 resp])) := by
  constructor
  · intro env c v vs dk resp henv hc ha hl hk hs
    have hcond := credsOk_cond env henv
    simp [main, hcond, hc, ha, hl, hk, hs]
  · intro env c
    cases hcond : (!(envValueTruthy env.DRONEMOBILE_USERNAME)
        || !(envValueTruthy env.DRONEMOBILE_PASSWORD)) with
    | true => exact Or.inl (by simp [main, hcond])
    | false =>
      cases hc : c.constructExc with
      | some e => exact Or.inl (by simp [main, hcond, hc])
      | none =>
        cases ha : c.authExc with
        | some e => exact Or.inl (by simp [main, hcond, hc, ha])
        | none =>
          cases hl : c.listResult with
          | error e => exact Or.inl (by simp [main, hcond, hc, ha, hl])
          | ok mv =>
            cases hveh : mv.getD [] with
            | nil => exact Or.inl (by simp [main, hcond, hc, ha, hl, hveh])
            | cons v vs =>
              cases hk : get_device_key v with
              | error m => exact Or.inl (by simp [main, hcond, hc, ha, hl, hveh, hk])
              | ok dk =>
                cases hs : c.startResult dk with
                | error e => exact Or.inl (by simp [main, hcond, hc, ha, hl, hveh, hk, hs])
                | ok resp =>
                  refine Or.inr ⟨?_, resp, ?_⟩ <;>
                    simp [main, hcond, hc, ha, hl, hveh, hk, hs]

/-- C5 witness: the spec's scenario C — one vehicle with
`deviceKey = "abc123"`, start command returning `{"status": "ok"}` —
prints the 2-space-indented serialization and exits 0. -/
theorem main_success_prints_json_witness :
    get_device_key [("deviceKey", Value.str "abc123"), ("name", Value.str "Car")] =
      Except.ok (Value.str "abc123") ∧
    main ⟨some "u", some "p"⟩
      ⟨Option.none, Option.none,
       Except.ok (some [[("deviceKey", Value.str "abc123"), ("name", Value.str "Car")]]),
       fun _ => Except.ok (Value.dict [("status", Value.str "ok")])⟩ =
      { exitCode := 0,
        stdout := [jsonDumpsIndent2 (Value.dict [("status", Value.str "ok")])],
        stderr := [],
        calls := [CallEvent.construct, CallEvent.auth, CallEvent.listVehicles,
                  CallEvent.startCommand] } :=
  ⟨rfl,
   main_success_prints_json.1 ⟨some "u", some "p"⟩
     ⟨Option.none, Option.none,
      Except.ok (some [[("deviceKey", Value.str "abc123"), ("name", Value.str "Car")]]),
      fun _ => Except.ok (Value.dict [("status", Value.str "ok")])⟩
     [("deviceKey", Value.str "abc123"), ("name", Value.str "Car")] []
     (Value.str "abc123") (Value.dict [("status", Value.str "ok")])
     (by decide) rfl rfl rfl rfl rfl⟩

/-- C6: if either credential variable is unset or empty, the runner exits
1 immediately with the configuration stderr line (which contains
`must be set as environment variables`) and an empty collaborator-call
trace: no client construction, authentication, listing, or command. -/
theorem main_missing_credentials (env : Env) (c : Client)
    (h : credsOk env = false) :
    main env c =
      { exitCode := 1, stdout := [],
        stderr := ["Error: Both DRONEMOBILE_USERNAME and DRONEMOBILE_PASSWORD must be set as environment variables."],
        calls := [] } ∧
    ∃ pre post, (main env c).stderr = [pre ++ "must be set as environment variables" ++ post] := by
  have hcond : (!(envValueTruthy env.DRONEMOBILE_USERNAME)
      || !(envValueTruthy env.DRONEMOBILE_PASSWORD)) = true := by
    unfold credsOk at h
    cases hU : envValueTruthy env.DRONEMOBILE_USERNAME <;>
      cases hP : envValueTruthy env.DRONEMOBILE_PASSWORD <;>
        simp_all
  constructor
  · simp [main, hcond]
  · refine ⟨"Error: Both DRONEMOBILE_USERNAME and DRONEMOBILE_PASSWORD ", ".", ?_⟩
    simp [main, hcond]

/-- C6 witness: with the username unset, the runner exits 1 with the
configuration message and makes no collaborator call. -/
theorem main_missing_credentials_witness :
    credsOk ⟨Option.none, some "p"⟩ = false ∧
    (main ⟨Option.none, some "p"⟩
        ⟨Option.none, Option.none, Except.ok (some []), fun _ => Except.ok Value.null⟩ =
      { exitCode := 1, stdout := [],
        stderr := ["Error: Both DRONEMOBILE_USERNAME and DRONEMOBILE_PASSWORD must be set as environment variables."],
        calls := [] } ∧
     ∃ pre post,
       (main ⟨Option.none, some "p"⟩
          ⟨Option.none, Option.none, Except.ok (some []), fun _ => Except.ok Value.null⟩).stderr =
         [pre ++ "must be set as environment variables" ++ post]) :=
  ⟨by decide,
   main_missing_credentials ⟨Option.none, some "p"⟩
     ⟨Option.none, Option.none, Except.ok (some []), fun _ => Except.ok Value.null⟩ (by decide)⟩

/-- C7: only the first vehicle record of a non-empty listing is ever
inspected or acted upon: two runs whose listings agree on the first
record (whatever the remaining records are) produce identical results,
for every environment and client behaviour. -/
theorem main_first_vehicle_only (env : Env) (c : Client) (v : VehicleRecord)
    (vs vs2 : List VehicleRecord) :
    main env { c with listResult := Except.ok (some (v :: vs)) } =
      main env { c with listResult := Except.ok (some (v :: vs2)) } := by
  cases hcond : (!(envValueTruthy env.DRONEMOBILE_USERNAME)
      || !(envValueTruthy env.DRONEMOBILE_PASSWORD)) with
  | true => simp [main, hcond]
  | false =>
    cases hc : c.constructExc with
    | some e => simp [main, hcond, hc]
    | none =>
      cases ha : c.authExc with
      | some e => simp [main, hcond, hc, ha]
      | none => simp [main, hcond, hc, ha]

/-- C8: when device-key extraction succeeds but the start command raises,
the runner exits 1 with a stderr line that begins
`Error issuing remote start command` followed by the underlying message,
and writes nothing to stdout. -/
theorem main_start_command_failure (env : Env) (c : Client) (v : VehicleRecord)
    (vs : List VehicleRecord) (dk : Value) (exc : String)
    (henv : credsOk env = true)
    (hc : c.constructExc = Option.none) (ha : c.authExc = Option.none)
    (hl : c.listResult = Except.ok (some (v :: vs)))
    (hk : get_device_key v = Except.ok dk)
    (hs : c.startResult dk = Except.error exc) :
    (main env c).exitCode = 1 ∧
    (main env c).stderr = ["Error issuing remote start command: " ++ exc] ∧
    (main env c).stdout = [] := by
  have hcond := credsOk_cond env henv
  refine ⟨?_, ?_, ?_⟩ <;> simp [main, hcond, hc, ha, hl, hk, hs]

/-- C8 witness: a vehicle with `device_key = "k1"` and a start call that
raises `kaboom` gives exit 1, the command-failure stderr line, and empty
stdout. -/
theorem main_start_command_failure_witness :
    get_device_key [("device_key", Value.str "k1")] = Except.ok (Value.str "k1") ∧
    ((main ⟨some "u", some "p"⟩
        ⟨Option.none, Option.none, Except.ok (some [[("device_key", Value.str "k1")]]),
         fun _ => Except.error "kaboom"⟩).exitCode = 1 ∧
     (main ⟨some "u", some "p"⟩
        ⟨Option.none, Option.none, Except.ok (some [[("device_key", Value.str "k1")]]),
         fun _ => Except.error "kaboom"⟩).stderr =
       ["Error issuing remote start command: " ++ "kaboom"] ∧
     (main ⟨some "u", some "p"⟩
        ⟨Option.none, Option.none, Except.ok (some [[("device_key", Value.str "k1")]]),
         fun _ => Except.error "kaboom"⟩).stdout = []) :=
  ⟨rfl,
   main_start_command_failure ⟨some "u", some "p"⟩
     ⟨Option.none, Option.none, Except.ok (some [[("device_key", Value.str "k1")]]),
      fun _ => Except.error "kaboom"⟩
     [("device_key", Value.str "k1")] [] (Value.str "k1") "kaboom"
     (by decide) rfl rfl rfl rfl rfl⟩

end StartMyCar
